import Mathlib

/-!
# Verification of the gempy core data model (`gempy/core/data/geo_model.py`)

A shallow embedding of the lazy derivation-and-invalidation pipeline of the
repository: the `GeoModel` dataclass, its `interpolation_input` cached
accessor, its `solutions` setter (group-slice and mesh distribution), and the
collaborating value objects (`Transform`, `StructuralFrame`, `Grid`,
`Solutions`).  Python floats are modelled as exact rationals (`ℚ`), numpy
arrays as lists, `None` as `Option.none`, and a raised exception as the
`Except.error` branch of an explicit result.
-/

namespace Gempy

attribute [local semireducible] Rat.add Rat.mul Rat.inv Rat.sub

deriving instance DecidableEq for Except

/-- Modelled error taxonomy.  `DegenerateInputError` is the fitting failure
named by the design; `IndexError` models Python's built-in list
index-out-of-range exception. -/
inductive GError where
  | DegenerateInputError : GError
  | IndexError : GError
deriving DecidableEq, Repr

/-- A 3-D point / vector with exact rational coordinates. -/
structure Vec3 where
  x : ℚ
  y : ℚ
  z : ℚ
deriving DecidableEq, Repr

/-- A surface point: position plus parent-surface id. -/
structure SurfacePoint where
  pos : Vec3
  surface_id : ℕ
deriving DecidableEq, Repr

/-- An orientation: position, gradient vector, parent-surface id. -/
structure Orientation where
  pos : Vec3
  gradient : Vec3
  surface_id : ℕ
deriving DecidableEq, Repr

/-- Modelled from the spec: `gempy/core/data/transforms.py` is not among the
provided sources.  A Transform is an invertible affine normalization:
translation vector plus per-axis scale vector (all scales positive for a
Transform fitted from data). -/
structure Transform where
  translation : Vec3
  scale : Vec3
deriving DecidableEq, Repr

/-- Forward affine map on a single point: translate, then scale each axis. -/
def Transform.apply (t : Transform) (p : Vec3) : Vec3 :=
  ⟨(p.x + t.translation.x) * t.scale.x,
   (p.y + t.translation.y) * t.scale.y,
   (p.z + t.translation.z) * t.scale.z⟩

/-- Exact algebraic inverse of `Transform.apply`: unscale, then untranslate. -/
def Transform.apply_inverse (t : Transform) (p : Vec3) : Vec3 :=
  ⟨p.x / t.scale.x - t.translation.x,
   p.y / t.scale.y - t.translation.y,
   p.z / t.scale.z - t.translation.z⟩

/-- Vectorized forward map over a list of points. -/
def Transform.applyAll (t : Transform) (ps : List Vec3) : List Vec3 :=
  ps.map t.apply

/-- Vectorized inverse map over a list of points. -/
def Transform.applyInverseAll (t : Transform) (ps : List Vec3) : List Vec3 :=
  ps.map t.apply_inverse

/-- Epsilon guarding the per-axis extent in the scale denominator
(modelled from the spec: `scale = target_unit_span / max(extent, epsilon)`). -/
def transformEpsilon : ℚ := 1 / 1000000

/-- Minimum of a coordinate over a nonempty coordinate list, seeded by the
head. -/
def listMin (a : ℚ) (as : List ℚ) : ℚ := as.foldl min a

/-- Maximum of a coordinate over a nonempty coordinate list, seeded by the
head. -/
def listMax (a : ℚ) (as : List ℚ) : ℚ := as.foldl max a

/-- Modelled from the spec: `Transform.from_input_points` (source file
`transforms.py` not provided).  Computes center and per-axis extent across all
input coordinates (surface-point positions and orientation positions), derives
`scale = 1 / max(extent_per_axis, epsilon)` and `translation = -center`.
Fails with `DegenerateInputError` when there are no points or all points are
coincident (zero extent on every axis). -/
def Transform.from_input_points (surface_points : List SurfacePoint)
    (orientations : List Orientation) : Except GError Transform :=
  let coords : List Vec3 :=
    surface_points.map (fun sp => sp.pos) ++ orientations.map (fun o => o.pos)
  match coords with
  | [] => .error .DegenerateInputError
  | c :: cs =>
    let minX := listMin c.x (cs.map (fun v => v.x))
    let maxX := listMax c.x (cs.map (fun v => v.x))
    let minY := listMin c.y (cs.map (fun v => v.y))
    let maxY := listMax c.y (cs.map (fun v => v.y))
    let minZ := listMin c.z (cs.map (fun v => v.z))
    let maxZ := listMax c.z (cs.map (fun v => v.z))
    let extX := maxX - minX
    let extY := maxY - minY
    let extZ := maxZ - minZ
    if extX = 0 ∧ extY = 0 ∧ extZ = 0 then
      .error .DegenerateInputError
    else
      .ok { translation := ⟨-((minX + maxX) / 2), -((minY + maxY) / 2), -((minZ + maxZ) / 2)⟩,
            scale := ⟨1 / max extX transformEpsilon,
                      1 / max extY transformEpsilon,
                      1 / max extZ transformEpsilon⟩ }

/-- How a structural group composites with the group below it. -/
inductive StackRelationType where
  | ERODE : StackRelationType
  | ONLAP : StackRelationType
  | FAULT : StackRelationType
  | BASEMENT : StackRelationType
deriving DecidableEq, Repr

/-- The atomic named geological surface: its own points and orientations,
plus the optional computed mesh (vertices and edge index triples), populated
by `GeoModel`'s solutions setter.  (`structural_element.py` is not among the
provided sources; fields follow the spec's data model.) -/
structure StructuralElement where
  name : String
  surface_points : List SurfacePoint
  orientations : List Orientation
  vertices : Option (List Vec3)
  edges : Option (List (ℕ × ℕ × ℕ))
deriving DecidableEq, Repr

/-- The per-group solution slice stored on a group by the solutions setter
(mirrors `LegacySolution(scalar_field_matrix=..., block_matrix=...)`). -/
structure LegacySolution where
  scalar_field_matrix : List ℚ
  block_matrix : List ℚ
deriving DecidableEq, Repr

/-- An ordered collection of StructuralElements sharing one series, with a
relation type and an optional per-group solution slice. -/
structure StructuralGroup where
  name : String
  elements : List StructuralElement
  structural_relation : StackRelationType
  solution : Option LegacySolution
deriving DecidableEq, Repr

/-- Modelled from the spec: `structural_frame.py` is not among the provided
sources.  The full ordered collection of StructuralGroups plus the dirty flag
(`is_dirty` is set by any structural mutation and, per the design, cleared
only by the owning GeoModel). -/
structure StructuralFrame where
  structural_groups : List StructuralGroup
  is_dirty : Bool
deriving DecidableEq, Repr

/-- All elements of the frame, flattened in group order then element order. -/
def StructuralFrame.structural_elements (f : StructuralFrame) : List StructuralElement :=
  (f.structural_groups.map (fun g => g.elements)).flatten

/-- All surface points of the frame, flattened in group-then-element order. -/
def StructuralFrame.surface_points (f : StructuralFrame) : List SurfacePoint :=
  (f.structural_elements.map (fun e => e.surface_points)).flatten

/-- All orientations of the frame, flattened in group-then-element order. -/
def StructuralFrame.orientations (f : StructuralFrame) : List Orientation :=
  (f.structural_elements.map (fun e => e.orientations)).flatten

/-- Modelled from the spec: the regular grid of `gempy/core/grid.py` (not
among the provided sources): an extent plus an optional explicit resolution
(`None` when the user never set one). -/
structure RegularGrid where
  extent : List ℚ
  resolution : Option (List ℕ)
deriving DecidableEq, Repr

/-- Method `RegularGrid.set_regular_grid`: overwrite extent and resolution (the
resolution argument is always a concrete array at the call site). -/
def RegularGrid.set_regular_grid (_g : RegularGrid) (extent : List ℚ)
    (resolution : List ℕ) : RegularGrid :=
  { extent := extent, resolution := some resolution }

/-- The general gempy grid; the claims only touch its regular grid. -/
structure Grid where
  regular_grid : RegularGrid
deriving DecidableEq, Repr

/-- The engine configuration consumed by the accessor; the claims only touch
`number_octree_levels`. -/
structure InterpolationOptions where
  number_octree_levels : ℕ
deriving DecidableEq, Repr

/-- Modelled from the spec: the engine-ready derived input
(`InterpolationInput` lives in the external `gempy_engine` package).  Built
from StructuralFrame + Grid + Transform: every point coordinate is mapped
through `Transform.apply`, orientation gradient vectors are left
untransformed. -/
structure InterpolationInput where
  surface_points : List Vec3
  orientation_positions : List Vec3
  orientation_gradients : List Vec3
  grid : Grid
  octrees : Bool
deriving DecidableEq, Repr

/-- Modelled from the spec: `InterpolationInput.from_structural_frame` of the
external engine package — a pure function of the frame's flattened tables, the
grid and the transform, applying `Transform.apply` to every point coordinate
and leaving gradients untransformed. -/
def InterpolationInput.from_structural_frame (structural_frame : StructuralFrame)
    (grid : Grid) (transform : Transform) (octrees : Bool) : InterpolationInput :=
  { surface_points :=
      (structural_frame.surface_points.map (fun sp => sp.pos)).map transform.apply,
    orientation_positions :=
      (structural_frame.orientations.map (fun o => o.pos)).map transform.apply,
    orientation_gradients := structural_frame.orientations.map (fun o => o.gradient),
    grid := grid,
    octrees := octrees }

/-- One dual-contouring mesh of the engine output: vertices in engine space
plus edge index triples. -/
structure DualContouringMesh where
  vertices : List Vec3
  edges : List (ℕ × ℕ × ℕ)
deriving DecidableEq, Repr

/-- The per-group raw solution arrays of the engine output
(`Solutions.raw_arrays`): row `e` of each matrix is group `e`'s slice. -/
structure RawArrays where
  scalar_field_matrix : List (List ℚ)
  block_matrix : List (List ℚ)
deriving DecidableEq, Repr

/-- The engine's output object: raw per-group arrays plus the optional list of
per-element meshes (`dc_meshes`), itself containing `None` entries for
elements with no extractable surface. -/
structure Solutions where
  raw_arrays : RawArrays
  dc_meshes : Option (List (Option DualContouringMesh))
deriving DecidableEq, Repr

/-- The metadata record built by `GeoModel.__init__` (all dates/owner left
`None` there). -/
structure GeoModelMeta where
  name : String
  creation_date : Option String
  last_modification_date : Option String
  owner : Option String
deriving DecidableEq, Repr

/-- The `GeoModel` dataclass state: structural frame, grid, transform,
options, the cached derived input `_interpolationInput` and the stored
`_solutions`. -/
structure GeoModel where
  meta : GeoModelMeta
  structural_frame : StructuralFrame
  grid : Grid
  transform : Transform
  interpolation_options : InterpolationOptions
  interpolationInput : Option InterpolationInput
  solutions : Option Solutions
deriving DecidableEq, Repr

/-- Property `GeoModel.surface_points`: delegates to the frame. -/
def GeoModel.surface_points (m : GeoModel) : List SurfacePoint :=
  m.structural_frame.surface_points

/-- Property `GeoModel.orientations`: delegates to the frame. -/
def GeoModel.orientations (m : GeoModel) : List Orientation :=
  m.structural_frame.orientations

/-- Constructor `GeoModel.__init__`: stores frame, grid and options, then fits the
Transform once from the model's surface points and orientations; a fitting
failure propagates to the caller. -/
def GeoModel.init (name : String) (structural_frame : StructuralFrame)
    (grid : Grid) (interpolation_options : InterpolationOptions) :
    Except GError GeoModel :=
  match Transform.from_input_points structural_frame.surface_points
      structural_frame.orientations with
  | .error e => .error e
  | .ok t =>
    .ok { meta := { name := name, creation_date := none,
                    last_modification_date := none, owner := none },
          structural_frame := structural_frame,
          grid := grid,
          transform := t,
          interpolation_options := interpolation_options,
          interpolationInput := none,
          solutions := none }

/-- The warning text emitted by the accessor when octrees are on and a regular
grid resolution is present. -/
def octreeResolutionWarning : String :=
  "You are using octrees and passing a regular grid. The resolution of the regular grid will be overwritten"

/-- Result of one read of the `interpolation_input` property: the model state
after the read, the returned value, the warnings emitted during the read, and
an instrumentation bit recording whether this read took the rebuild branch. -/
structure ReadResult where
  model : GeoModel
  value : Option InterpolationInput
  warnings : List String
  rebuilt : Bool
deriving DecidableEq, Repr

/-- The `GeoModel.interpolation_input` property (read path), transcribed from
`geo_model.py` lines 105-130: when the frame is dirty, optionally overwrite
the regular-grid resolution to `2^levels` per axis (warning first when a
resolution is present), rebuild the cached input from frame, grid and the
stored transform, and return it; when clean, return the cache untouched.
The source never clears `structural_frame.is_dirty`. -/
def GeoModel.interpolation_input_read (m : GeoModel) : ReadResult :=
  if m.structural_frame.is_dirty then
    let n_octree_lvl := m.interpolation_options.number_octree_levels
    let compute_octrees : Bool := n_octree_lvl > 1
    let warns : List String :=
      if compute_octrees ∧ m.grid.regular_grid.resolution ≠ none then
        [octreeResolutionWarning]
      else []
    let grid1 : Grid :=
      if compute_octrees then
        { regular_grid :=
            m.grid.regular_grid.set_regular_grid m.grid.regular_grid.extent
              (List.replicate 3 (2 ^ n_octree_lvl)) }
      else m.grid
    let ii := InterpolationInput.from_structural_frame m.structural_frame grid1
      m.transform compute_octrees
    { model := { m with grid := grid1, interpolationInput := some ii },
      value := some ii,
      warnings := warns,
      rebuilt := true }
  else
    { model := m, value := m.interpolationInput, warnings := [], rebuilt := false }

/-- Evaluation of `self._solutions.dc_meshes[e] if self._solutions.dc_meshes is not None else None`:
`dc_meshes is None` yields `None`; otherwise the list is indexed, raising
`IndexError` when `e` is out of range. -/
def meshAt (dc_meshes : Option (List (Option DualContouringMesh))) (e : ℕ) :
    Except GError (Option DualContouringMesh) :=
  match dc_meshes with
  | none => .ok none
  | some l =>
    match l[e]? with
    | none => .error .IndexError
    | some dc => .ok dc

/-- The two element assignments of the setter body:
`element.vertices = transform.apply_inverse(dc_mesh.vertices) if dc_mesh is not None else None`
and `element.edges = dc_mesh.edges if dc_mesh is not None else None`. -/
def applyMesh (t : Transform) (el : StructuralElement) :
    Option DualContouringMesh → StructuralElement
  | none => { el with vertices := none, edges := none }
  | some dc =>
    { el with vertices := some (dc.vertices.map t.apply_inverse),
              edges := some dc.edges }

/-- The element loop `for e, element in enumerate(structural_elements[:-1])`
of the setter: processes every element except the last (basement), indexing
`dc_meshes` with the running counter that starts at `k`. -/
def distributeMeshes (t : Transform)
    (dc_meshes : Option (List (Option DualContouringMesh))) :
    List StructuralElement → ℕ → Except GError (List StructuralElement)
  | [], _ => .ok []
  | [last], _ => .ok [last]
  | el :: next :: rest, k =>
    match meshAt dc_meshes k with
    | .error e => .error e
    | .ok dc =>
      match distributeMeshes t dc_meshes (next :: rest) (k + 1) with
      | .error e => .error e
      | .ok rest2 => .ok (applyMesh t el dc :: rest2)

/-- The group loop `for e, group in enumerate(structural_groups)` of the
setter: stores on each group the `LegacySolution` built from row `k + i` of
the raw arrays (`k` is the running counter), raising `IndexError` when a row
is missing. -/
def assignGroupSolutions (raw : RawArrays) :
    List StructuralGroup → ℕ → Except GError (List StructuralGroup)
  | [], _ => .ok []
  | g :: gs, k =>
    match raw.scalar_field_matrix[k]? with
    | none => .error .IndexError
    | some sf =>
      match raw.block_matrix[k]? with
      | none => .error .IndexError
      | some bm =>
        match assignGroupSolutions raw gs (k + 1) with
        | .error e => .error e
        | .ok gs2 =>
          .ok ({ g with solution := some { scalar_field_matrix := sf,
                                           block_matrix := bm } } :: gs2)

/-- Splits a flat list back into chunks of the given lengths (the inverse of
flattening used to write per-element updates back into the group
structure). -/
def regroup : List ℕ → List StructuralElement → List (List StructuralElement)
  | [], _ => []
  | n :: ns, l => l.take n :: regroup ns (l.drop n)

/-- The `GeoModel.solutions` setter (`geo_model.py` lines 80-94): store the
Solutions object, give every group its per-index `LegacySolution` slice, then
walk the flattened elements (basement excluded) distributing the optional
meshes, inverse-transforming vertices and copying edges; any out-of-range
index surfaces as an error. -/
def GeoModel.set_solutions (m : GeoModel) (value : Solutions) :
    Except GError GeoModel :=
  match assignGroupSolutions value.raw_arrays m.structural_frame.structural_groups 0 with
  | .error e => .error e
  | .ok groups1 =>
    let flat := (groups1.map (fun g => g.elements)).flatten
    match distributeMeshes m.transform value.dc_meshes flat 0 with
    | .error e => .error e
    | .ok flat2 =>
      let groups2 := List.zipWith (fun g es => { g with elements := es })
        groups1 (regroup (groups1.map (fun g => g.elements.length)) flat2)
      .ok { m with
        solutions := some value,
        structural_frame := { m.structural_frame with structural_groups := groups2 } }

/-- Concrete element with two surface points and one orientation. -/
def elemA : StructuralElement :=
  { name := "rock1",
    surface_points := [⟨⟨0, 0, 0⟩, 0⟩, ⟨⟨1, 2, 3⟩, 0⟩],
    orientations := [⟨⟨0, 0, 1⟩, ⟨0, 0, 1⟩, 0⟩],
    vertices := none, edges := none }

/-- Concrete element with one surface point. -/
def elemB : StructuralElement :=
  { name := "rock2",
    surface_points := [⟨⟨2, 1, 0⟩, 1⟩],
    orientations := [],
    vertices := none, edges := none }

/-- Concrete basement element (last in flattened order). -/
def elemBasement : StructuralElement :=
  { name := "basement",
    surface_points := [⟨⟨0, 1, 4⟩, 2⟩],
    orientations := [],
    vertices := none, edges := none }

/-- Concrete first group: two elements, erosional relation. -/
def exGroup1 : StructuralGroup :=
  { name := "series1", elements := [elemA, elemB],
    structural_relation := .ERODE, solution := none }

/-- Concrete second group: the basement element. -/
def exGroup2 : StructuralGroup :=
  { name := "series2", elements := [elemBasement],
    structural_relation := .BASEMENT, solution := none }

/-- Concrete two-group frame (three flattened elements, basement last),
marked dirty. -/
def exFrame : StructuralFrame :=
  { structural_groups := [exGroup1, exGroup2], is_dirty := true }

/-- Concrete grid with a user-set resolution. -/
def exGrid : Grid :=
  { regular_grid := { extent := [0, 10, 0, 10, 0, 10],
                      resolution := some [10, 10, 10] } }

/-- Concrete transform with invertible scales. -/
def exTransform : Transform := { translation := ⟨1, 1, 1⟩, scale := ⟨2, 2, 2⟩ }

/-- Concrete GeoModel state: dirty frame, octree solving off. -/
def exModel : GeoModel :=
  { meta := { name := "model", creation_date := none,
              last_modification_date := none, owner := none },
    structural_frame := exFrame,
    grid := exGrid,
    transform := exTransform,
    interpolation_options := { number_octree_levels := 0 },
    interpolationInput := none,
    solutions := none }

/-- Concrete engine mesh for element 0. -/
def exMesh : DualContouringMesh :=
  { vertices := [⟨2, 4, 6⟩, ⟨0, 2, 8⟩], edges := [(0, 1, 2)] }

/-- Concrete engine output: two group slices, meshes for element 0 only
(element 1 deliberately has no extractable surface). -/
def exSolutions : Solutions :=
  { raw_arrays := { scalar_field_matrix := [[1, 2], [3, 4]],
                    block_matrix := [[5, 6], [7, 8]] },
    dc_meshes := some [some exMesh, none] }

/-- The model after assigning `exSolutions` to `exModel` (total projection of
the setter's result). -/
def exModelSolved : GeoModel :=
  match exModel.set_solutions exSolutions with
  | .ok m => m
  | .error _ => exModel

/-- Concrete model configured for octree solving (`number_octree_levels = 3`)
with the user-set resolution `[10, 10, 10]`. -/
def mC5 : GeoModel := { exModel with interpolation_options := { number_octree_levels := 3 } }

/-- Concrete one-group model (its single group holds one element, so the
basement-excluding element loop does nothing). -/
def exModelOneGroup : GeoModel :=
  { exModel with
    structural_frame :=
      { structural_groups :=
          [{ name := "only", elements := [elemBasement],
             structural_relation := .BASEMENT, solution := none }],
        is_dirty := false } }

/-- Concrete engine output with two group slices and no meshes. -/
def exSolutionsTwoSlices : Solutions :=
  { raw_arrays := { scalar_field_matrix := [[1], [2]],
                    block_matrix := [[3], [4]] },
    dc_meshes := none }

/-- Concrete engine output with no slices at all and no meshes. -/
def exSolutionsEmpty : Solutions :=
  { raw_arrays := { scalar_field_matrix := [], block_matrix := [] },
    dc_meshes := none }

/-- The model after assigning two slices to the one-group model (total
projection of the setter's result). -/
def exModelOneGroupSolved : GeoModel :=
  match exModelOneGroup.set_solutions exSolutionsTwoSlices with
  | .ok m => m
  | .error _ => exModelOneGroup

/-- Concrete model name used by the constructor fixtures. -/
def exName : String := "model"

/-- The model constructed by `GeoModel.init` on the concrete frame (total
projection of the constructor's result). -/
def mC7 : GeoModel :=
  match GeoModel.init exName exFrame exGrid { number_octree_levels := 0 } with
  | .ok m => m
  | .error _ => exModel

/-- Concrete degenerate frame: a single surface point repeated twice, no
orientations. -/
def degFrame : StructuralFrame :=
  { structural_groups :=
      [{ name := "deg",
         elements := [{ name := "flat",
                        surface_points := [⟨⟨5, 5, 5⟩, 0⟩, ⟨⟨5, 5, 5⟩, 0⟩],
                        orientations := [],
                        vertices := none, edges := none }],
         structural_relation := .ERODE, solution := none }],
    is_dirty := true }

theorem apply_inverse_apply (t : Transform) (hx : t.scale.x ≠ 0)
    (hy : t.scale.y ≠ 0) (hz : t.scale.z ≠ 0) (p : Vec3) :
    t.apply_inverse (t.apply p) = p := by
  cases p with
  | mk px py pz =>
    simp only [Transform.apply, Transform.apply_inverse, Vec3.mk.injEq]
    refine ⟨?_, ?_, ?_⟩
    · rw [mul_div_cancel_right₀ _ hx, add_sub_cancel_right]
    · rw [mul_div_cancel_right₀ _ hy, add_sub_cancel_right]
    · rw [mul_div_cancel_right₀ _ hz, add_sub_cancel_right]

/-- C8: for every valid Transform (all scale components positive) and every
finite point list, the vectorized inverse map undoes the vectorized forward
map exactly (hence in particular within any floating-point tolerance). -/
theorem transform_roundtrip (t : Transform) (hx : 0 < t.scale.x)
    (hy : 0 < t.scale.y) (hz : 0 < t.scale.z) (P : List Vec3) :
    t.applyInverseAll (t.applyAll P) = P := by
  induction P with
  | nil => rfl
  | cons p ps ih =>
    simp only [Transform.applyAll, Transform.applyInverseAll, List.map_cons] at ih ⊢
    rw [apply_inverse_apply t (ne_of_gt hx) (ne_of_gt hy) (ne_of_gt hz) p, ih]

theorem transform_roundtrip_witness :
    0 < exTransform.scale.x ∧ 0 < exTransform.scale.y ∧ 0 < exTransform.scale.z ∧
    exTransform.applyInverseAll
        (exTransform.applyAll [⟨3, -1, 7⟩, ⟨0, 0, 0⟩, ⟨1/2, 5, -3⟩]) =
      [⟨3, -1, 7⟩, ⟨0, 0, 0⟩, ⟨1/2, 5, -3⟩] :=
  ⟨by decide, by decide, by decide,
    transform_roundtrip exTransform (by decide) (by decide) (by decide) _⟩

theorem listMin_const (b : ℚ) : ∀ as : List ℚ, (∀ a ∈ as, a = b) → listMin b as = b
  | [], _ => rfl
  | a :: as, h => by
    have ha : a = b := h a (List.mem_cons_self a as)
    have hrest : listMin b as = b :=
      listMin_const b as (fun x hx => h x (List.mem_cons_of_mem a hx))
    simp only [listMin, List.foldl_cons] at hrest ⊢
    rw [ha, min_self]
    exact hrest

theorem listMax_const (b : ℚ) : ∀ as : List ℚ, (∀ a ∈ as, a = b) → listMax b as = b
  | [], _ => rfl
  | a :: as, h => by
    have ha : a = b := h a (List.mem_cons_self a as)
    have hrest : listMax b as = b :=
      listMax_const b as (fun x hx => h x (List.mem_cons_of_mem a hx))
    simp only [listMax, List.foldl_cons] at hrest ⊢
    rw [ha, max_self]
    exact hrest

/-- C9: fitting a Transform from input whose coordinates are all coincident
(at least one point, every position equal) fails with `DegenerateInputError`,
and `GeoModel.init`, which fits the Transform from the frame's flattened
inputs, surfaces the same error for such a frame. -/
theorem degenerate_coincident_points_error (f : StructuralFrame) (p : Vec3)
    (hne : f.surface_points.map (fun s => s.pos) ++
        f.orientations.map (fun o => o.pos) ≠ [])
    (hall : ∀ q ∈ f.surface_points.map (fun s => s.pos) ++
        f.orientations.map (fun o => o.pos), q = p) :
    Transform.from_input_points f.surface_points f.orientations =
      .error .DegenerateInputError ∧
    ∀ (name : String) (grid : Grid) (opts : InterpolationOptions),
      GeoModel.init name f grid opts = .error .DegenerateInputError := by
  obtain ⟨c, cs, hc⟩ : ∃ c cs, f.surface_points.map (fun s => s.pos) ++
      f.orientations.map (fun o => o.pos) = c :: cs := by
    cases hl : f.surface_points.map (fun s => s.pos) ++
        f.orientations.map (fun o => o.pos) with
    | nil => exact absurd hl hne
    | cons a l => exact ⟨a, l, rfl⟩
  rw [hc] at hall
  have hcx : c.x = p.x := by rw [hall c (List.mem_cons_self c cs)]
  have hcy : c.y = p.y := by rw [hall c (List.mem_cons_self c cs)]
  have hcz : c.z = p.z := by rw [hall c (List.mem_cons_self c cs)]
  have hxs : ∀ a ∈ cs.map (fun v => v.x), a = p.x := by
    intro a ha
    obtain ⟨v, hv, rfl⟩ := List.mem_map.1 ha
    rw [hall v (List.mem_cons_of_mem c hv)]
  have hys : ∀ a ∈ cs.map (fun v => v.y), a = p.y := by
    intro a ha
    obtain ⟨v, hv, rfl⟩ := List.mem_map.1 ha
    rw [hall v (List.mem_cons_of_mem c hv)]
  have hzs : ∀ a ∈ cs.map (fun v => v.z), a = p.z := by
    intro a ha
    obtain ⟨v, hv, rfl⟩ := List.mem_map.1 ha
    rw [hall v (List.mem_cons_of_mem c hv)]
  have herr : Transform.from_input_points f.surface_points f.orientations =
      .error .DegenerateInputError := by
    simp only [Transform.from_input_points, hc]
    have hX : listMax c.x (cs.map (fun v => v.x)) -
        listMin c.x (cs.map (fun v => v.x)) = 0 := by
      rw [hcx, listMax_const p.x _ hxs, listMin_const p.x _ hxs, sub_self]
    have hY : listMax c.y (cs.map (fun v => v.y)) -
        listMin c.y (cs.map (fun v => v.y)) = 0 := by
      rw [hcy, listMax_const p.y _ hys, listMin_const p.y _ hys, sub_self]
    have hZ : listMax c.z (cs.map (fun v => v.z)) -
        listMin c.z (cs.map (fun v => v.z)) = 0 := by
      rw [hcz, listMax_const p.z _ hzs, listMin_const p.z _ hzs, sub_self]
    split
    · rfl
    · next h => exact absurd ⟨hX, hY, hZ⟩ h
  refine ⟨herr, fun name grid opts => ?_⟩
  simp only [GeoModel.init, herr]

theorem degenerate_coincident_points_error_witness :
    (degFrame.surface_points.map (fun s => s.pos) ++
        degFrame.orientations.map (fun o => o.pos) ≠ []) ∧
    Transform.from_input_points degFrame.surface_points degFrame.orientations =
      .error .DegenerateInputError ∧
    GeoModel.init exName degFrame exGrid { number_octree_levels := 0 } =
      .error .DegenerateInputError :=
  ⟨by decide,
   (degenerate_coincident_points_error degFrame ⟨5, 5, 5⟩ (by decide) (by decide)).1,
   (degenerate_coincident_points_error degFrame ⟨5, 5, 5⟩ (by decide) (by decide)).2
     exName exGrid { number_octree_levels := 0 }⟩

/-- C1: the claim is that a dirty read rebuilds the cache and clears
`StructuralFrame.is_dirty`, so repeated reads perform exactly one rebuild per
dirty period.  Evaluating the transcribed accessor on a dirty model shows the
code never clears the flag: after a first (rebuilding) read the frame is still
dirty and a second read with no intervening mutation takes the rebuild branch
again — two rebuilds in one dirty period. -/
theorem interpolation_input_read_never_clears_dirty :
    (exModel.interpolation_input_read).rebuilt = true ∧
    (exModel.interpolation_input_read).model.structural_frame.is_dirty = true ∧
    ((exModel.interpolation_input_read).model.interpolation_input_read).rebuilt = true := by
  refine ⟨by decide, by decide, by decide⟩

/-- C5: on a dirty read with `number_octree_levels > 1` and a non-absent
regular-grid resolution, the accessor records the non-fatal override warning,
overwrites the resolution to `2^levels` on each axis (keeping the extent),
rebuilds, and still returns a value. -/
theorem octree_override_on_dirty_read (m : GeoModel) (r : List ℕ)
    (hdirty : m.structural_frame.is_dirty = true)
    (hlvl : 1 < m.interpolation_options.number_octree_levels)
    (hres : m.grid.regular_grid.resolution = some r) :
    (m.interpolation_input_read).warnings = [octreeResolutionWarning] ∧
    (m.interpolation_input_read).model.grid.regular_grid.resolution =
      some (List.replicate 3 (2 ^ m.interpolation_options.number_octree_levels)) ∧
    (m.interpolation_input_read).model.grid.regular_grid.extent =
      m.grid.regular_grid.extent ∧
    (m.interpolation_input_read).rebuilt = true ∧
    (m.interpolation_input_read).value.isSome = true := by
  have hb : decide (m.interpolation_options.number_octree_levels > 1) = true :=
    decide_eq_true hlvl
  simp [GeoModel.interpolation_input_read, hdirty, hb, hres,
    RegularGrid.set_regular_grid]

theorem octree_override_on_dirty_read_witness :
    mC5.structural_frame.is_dirty = true ∧
    1 < mC5.interpolation_options.number_octree_levels ∧
    mC5.grid.regular_grid.resolution = some [10, 10, 10] ∧
    (mC5.interpolation_input_read).warnings = [octreeResolutionWarning] ∧
    (mC5.interpolation_input_read).model.grid.regular_grid.resolution =
      some [8, 8, 8] := by
  refine ⟨rfl, by decide, rfl, ?_, ?_⟩
  · exact (octree_override_on_dirty_read mC5 [10, 10, 10] rfl (by decide) rfl).1
  · exact (octree_override_on_dirty_read mC5 [10, 10, 10] rfl (by decide) rfl).2.1

/-- C10: with `number_octree_levels ≤ 1` a read of the derived input (dirty
or not) leaves the grid — in particular its regular-grid resolution and
extent — and every other field except the cached InterpolationInput
unchanged, and emits no warning. -/
theorem octree_disabled_read_pure (m : GeoModel)
    (h : m.interpolation_options.number_octree_levels ≤ 1) :
    (m.interpolation_input_read).model.grid = m.grid ∧
    (m.interpolation_input_read).model.grid.regular_grid.resolution =
      m.grid.regular_grid.resolution ∧
    (m.interpolation_input_read).model.grid.regular_grid.extent =
      m.grid.regular_grid.extent ∧
    (m.interpolation_input_read).warnings = [] ∧
    (m.interpolation_input_read).model.structural_frame = m.structural_frame ∧
    (m.interpolation_input_read).model.transform = m.transform ∧
    (m.interpolation_input_read).model.interpolation_options =
      m.interpolation_options ∧
    (m.interpolation_input_read).model.solutions = m.solutions ∧
    (m.interpolation_input_read).model.meta = m.meta := by
  have hb : decide (m.interpolation_options.number_octree_levels > 1) = false :=
    decide_eq_false (by omega)
  by_cases hdirty : m.structural_frame.is_dirty
  · simp [GeoModel.interpolation_input_read, hdirty, hb]
  · simp [GeoModel.interpolation_input_read, hdirty]

theorem octree_disabled_read_pure_witness :
    exModel.interpolation_options.number_octree_levels ≤ 1 ∧
    (exModel.interpolation_input_read).model.grid = exModel.grid ∧
    (exModel.interpolation_input_read).warnings = [] := by
  refine ⟨by decide, ?_, ?_⟩
  · exact (octree_disabled_read_pure exModel (by decide)).1
  · exact (octree_disabled_read_pure exModel (by decide)).2.2.2.1

theorem assignGroupSolutions_ok_spec (raw : RawArrays) :
    ∀ (gs : List StructuralGroup) (k : ℕ) (gs2 : List StructuralGroup),
      assignGroupSolutions raw gs k = .ok gs2 →
      gs2.length = gs.length ∧
      gs2.map (fun g => g.elements) = gs.map (fun g => g.elements) ∧
      ∀ i g, gs[i]? = some g →
        ∃ sf bm, raw.scalar_field_matrix[k + i]? = some sf ∧
          raw.block_matrix[k + i]? = some bm ∧
          gs2[i]? = some { g with solution := some { scalar_field_matrix := sf, block_matrix := bm } }
  | [], k, gs2, h => by
    simp only [assignGroupSolutions] at h
    injection h with h2
    subst h2
    refine ⟨rfl, rfl, ?_⟩
    intro i g hg
    simp at hg
  | g :: gs, k, gs2, h => by
    simp only [assignGroupSolutions] at h
    split at h
    next hsf => simp at h
    next sf hsf =>
      split at h
      next hbm => simp at h
      next bm hbm =>
        split at h
        next e hrec => simp at h
        next gs2' hrec =>
          obtain ⟨hlen, hmap, hidx⟩ :=
            assignGroupSolutions_ok_spec raw gs (k + 1) gs2' hrec
          injection h with h2
          subst h2
          refine ⟨by simp [hlen], by simp [hmap], ?_⟩
          intro i g0 hg
          cases i with
          | zero =>
            simp only [List.getElem?_cons_zero, Option.some.injEq] at hg
            subst hg
            exact ⟨sf, bm, by simpa using hsf, by simpa using hbm, by simp⟩
          | succ j =>
            simp only [List.getElem?_cons_succ] at hg
            obtain ⟨sf', bm', h1, h2, h3⟩ := hidx j g0 hg
            have hkj : k + (j + 1) = k + 1 + j := by omega
            exact ⟨sf', bm', by rw [hkj]; exact h1, by rw [hkj]; exact h2,
              by simpa using h3⟩

theorem assignGroupSolutions_total (raw : RawArrays) :
    ∀ (gs : List StructuralGroup) (k : ℕ),
      k + gs.length ≤ raw.scalar_field_matrix.length →
      k + gs.length ≤ raw.block_matrix.length →
      ∃ gs2, assignGroupSolutions raw gs k = .ok gs2
  | [], _, _, _ => ⟨[], rfl⟩
  | g :: gs, k, h1, h2 => by
    have hk1 : k < raw.scalar_field_matrix.length := by
      simp only [List.length_cons] at h1; omega
    have hk2 : k < raw.block_matrix.length := by
      simp only [List.length_cons] at h2; omega
    obtain ⟨gs2', hrec⟩ := assignGroupSolutions_total raw gs (k + 1)
      (by simp only [List.length_cons] at h1; omega)
      (by simp only [List.length_cons] at h2; omega)
    refine ⟨{ g with solution := some { scalar_field_matrix := raw.scalar_field_matrix[k], block_matrix := raw.block_matrix[k] } } :: gs2', ?_⟩
    simp [assignGroupSolutions, List.getElem?_eq_getElem hk1,
      List.getElem?_eq_getElem hk2, hrec]

theorem assignGroupSolutions_err (raw : RawArrays) :
    ∀ (gs : List StructuralGroup) (k : ℕ), gs ≠ [] →
      (raw.scalar_field_matrix.length < k + gs.length ∨
        raw.block_matrix.length < k + gs.length) →
      assignGroupSolutions raw gs k = .error .IndexError
  | [], _, hne, _ => absurd rfl hne
  | g :: gs, k, _, hlt => by
    cases hsf : raw.scalar_field_matrix[k]? with
    | none => simp [assignGroupSolutions, hsf]
    | some sf =>
      have hk1 : k < raw.scalar_field_matrix.length := (List.getElem?_eq_some.1 hsf).1
      cases hbm : raw.block_matrix[k]? with
      | none => simp [assignGroupSolutions, hsf, hbm]
      | some bm =>
        have hk2 : k < raw.block_matrix.length := (List.getElem?_eq_some.1 hbm).1
        have hne2 : gs ≠ [] := by
          intro hnil
          subst hnil
          simp only [List.length_cons, List.length_nil] at hlt
          omega
        have hlt2 : raw.scalar_field_matrix.length < k + 1 + gs.length ∨
            raw.block_matrix.length < k + 1 + gs.length := by
          simp only [List.length_cons] at hlt
          omega
        have hrec := assignGroupSolutions_err raw gs (k + 1) hne2 hlt2
        simp [assignGroupSolutions, hsf, hbm, hrec]

theorem distributeMeshes_ok_spec (t : Transform)
    (ms : Option (List (Option DualContouringMesh))) :
    ∀ (l : List StructuralElement) (k : ℕ) (l2 : List StructuralElement),
      distributeMeshes t ms l k = .ok l2 →
      l2.length = l.length ∧
      (∀ i, i + 1 = l.length → l2[i]? = l[i]?) ∧
      (∀ i el, i + 1 < l.length → l[i]? = some el →
        ∃ dc, meshAt ms (k + i) = .ok dc ∧
          l2[i]? = some (applyMesh t el dc))
  | [], k, l2, h => by
    simp only [distributeMeshes] at h
    injection h with h2
    subst h2
    exact ⟨rfl, by intro i hi; simp at hi, by intro i el hi hel; simp at hi⟩
  | [last], k, l2, h => by
    simp only [distributeMeshes] at h
    injection h with h2
    subst h2
    refine ⟨rfl, fun i hi => rfl, ?_⟩
    intro i el hi hel
    simp only [List.length_cons, List.length_nil] at hi
    omega
  | el :: next :: rest, k, l2, h => by
    simp only [distributeMeshes] at h
    split at h
    next e hmesh => simp at h
    next dc hmesh =>
      split at h
      next e hrec => simp at h
      next rest2 hrec =>
        obtain ⟨hlen, hlast, hmid⟩ :=
          distributeMeshes_ok_spec t ms (next :: rest) (k + 1) rest2 hrec
        injection h with h2
        subst h2
        refine ⟨by simp [hlen], ?_, ?_⟩
        · intro i hi
          simp only [List.length_cons] at hi
          cases i with
          | zero => omega
          | succ j =>
            simp only [List.getElem?_cons_succ]
            exact hlast j (by simp only [List.length_cons]; omega)
        · intro i el0 hi hel
          cases i with
          | zero =>
            simp only [List.getElem?_cons_zero, Option.some.injEq] at hel
            subst hel
            exact ⟨dc, by simpa using hmesh, by simp⟩
          | succ j =>
            simp only [List.getElem?_cons_succ] at hel
            simp only [List.length_cons] at hi
            obtain ⟨dc', h1, h2⟩ := hmid j el0
              (by simp only [List.length_cons]; omega) hel
            have hkj : k + (j + 1) = k + 1 + j := by omega
            exact ⟨dc', by rw [hkj]; exact h1, by simpa using h2⟩

theorem distributeMeshes_total (t : Transform)
    (ms : Option (List (Option DualContouringMesh))) :
    ∀ (l : List StructuralElement) (k : ℕ),
      (∀ lst, ms = some lst → k + l.length ≤ lst.length + 1) →
      ∃ l2, distributeMeshes t ms l k = .ok l2
  | [], _, _ => ⟨[], rfl⟩
  | [last], _, _ => ⟨[last], rfl⟩
  | el :: next :: rest, k, h => by
    obtain ⟨dc, hdc⟩ : ∃ dc, meshAt ms k = .ok dc := by
      cases hms : ms with
      | none => exact ⟨none, rfl⟩
      | some lst =>
        have hk : k < lst.length := by
          have := h lst hms
          simp only [List.length_cons] at this
          omega
        exact ⟨lst[k], by simp [meshAt, List.getElem?_eq_getElem hk]⟩
    obtain ⟨l2', hl2⟩ := distributeMeshes_total t ms (next :: rest) (k + 1)
      (fun lst hms => by
        have := h lst hms
        simp only [List.length_cons] at this ⊢
        omega)
    exact ⟨applyMesh t el dc :: l2', by simp [distributeMeshes, hdc, hl2]⟩

theorem regroup_length :
    ∀ (ns : List ℕ) (l : List StructuralElement), (regroup ns l).length = ns.length
  | [], _ => rfl
  | n :: ns, l => by simp [regroup, regroup_length ns]

theorem regroup_flatten :
    ∀ (ns : List ℕ) (l : List StructuralElement),
      ns.sum = l.length → (regroup ns l).flatten = l
  | [], l, h => by
    simp only [regroup, List.flatten_nil]
    have hl : l.length = 0 := by simpa using h.symm
    exact (List.length_eq_zero.1 hl).symm
  | n :: ns, l, h => by
    simp only [regroup, List.flatten_cons]
    rw [regroup_flatten ns (l.drop n)
      (by simp only [List.sum_cons] at h; simp only [List.length_drop]; omega)]
    exact List.take_append_drop n l

theorem zipElems_map_elements :
    ∀ (gs : List StructuralGroup) (ls : List (List StructuralElement)),
      gs.length = ls.length →
      (List.zipWith (fun g es => { g with elements := es }) gs ls).map
        (fun g => g.elements) = ls
  | [], [], _ => rfl
  | [], _ :: _, h => by simp at h
  | _ :: _, [], h => by simp at h
  | g :: gs, es :: ls, h => by
    simp only [List.zipWith_cons_cons, List.map_cons]
    rw [zipElems_map_elements gs ls (by simpa using h)]

theorem zipElems_getElem :
    ∀ (gs : List StructuralGroup) (ls : List (List StructuralElement)) (i : ℕ)
      (g : StructuralGroup) (es : List StructuralElement),
      gs[i]? = some g → ls[i]? = some es →
      (List.zipWith (fun g es => { g with elements := es }) gs ls)[i]? =
        some { g with elements := es }
  | [], _, i, _, _, hg, _ => by simp at hg
  | _ :: _, [], i, _, _, _, hes => by simp at hes
  | g0 :: gs, es0 :: ls, 0, g, es, hg, hes => by
    simp only [List.getElem?_cons_zero, Option.some.injEq] at hg hes
    subst hg
    subst hes
    simp
  | g0 :: gs, es0 :: ls, i + 1, g, es, hg, hes => by
    simp only [List.getElem?_cons_succ, List.zipWith_cons_cons] at hg hes ⊢
    exact zipElems_getElem gs ls i g es hg hes

theorem set_solutions_ok_parts (m : GeoModel) (v : Solutions) (m2 : GeoModel)
    (h : m.set_solutions v = .ok m2) :
    ∃ groups1 flat2,
      assignGroupSolutions v.raw_arrays m.structural_frame.structural_groups 0 =
        .ok groups1 ∧
      distributeMeshes m.transform v.dc_meshes
        ((groups1.map (fun g => g.elements)).flatten) 0 = .ok flat2 ∧
      m2 = { m with solutions := some v, structural_frame := { m.structural_frame with structural_groups := List.zipWith (fun g es => { g with elements := es }) groups1 (regroup (groups1.map (fun g => g.elements.length)) flat2) } } := by
  simp only [GeoModel.set_solutions] at h
  split at h
  next e heq => simp at h
  next groups1 heq =>
    split at h
    next e heq2 => simp at h
    next flat2 heq2 =>
      injection h with h2
      exact ⟨groups1, flat2, heq, heq2, h2.symm⟩

theorem set_solutions_elements (m : GeoModel) (v : Solutions) (m2 : GeoModel)
    (h : m.set_solutions v = .ok m2) :
    ∃ flat2,
      distributeMeshes m.transform v.dc_meshes
        m.structural_frame.structural_elements 0 = .ok flat2 ∧
      m2.structural_frame.structural_elements = flat2 ∧
      m2.transform = m.transform := by
  obtain ⟨groups1, flat2, hassign, hdist, hm2⟩ := set_solutions_ok_parts m v m2 h
  obtain ⟨hlen, hmap, _⟩ := assignGroupSolutions_ok_spec v.raw_arrays
    m.structural_frame.structural_groups 0 groups1 hassign
  have hflat : (groups1.map (fun g => g.elements)).flatten =
      m.structural_frame.structural_elements := by
    rw [StructuralFrame.structural_elements, hmap]
  rw [hflat] at hdist
  obtain ⟨hdlen, _, _⟩ := distributeMeshes_ok_spec m.transform v.dc_meshes
    m.structural_frame.structural_elements 0 flat2 hdist
  have hsum : (groups1.map (fun g => g.elements.length)).sum = flat2.length := by
    have h1 : (groups1.map (fun g => g.elements.length)).sum =
        ((groups1.map (fun g => g.elements)).flatten).length := by
      rw [List.length_flatten, List.map_map]
      rfl
    rw [h1, hflat]
    exact hdlen.symm
  refine ⟨flat2, hdist, ?_, ?_⟩
  · subst hm2
    simp only [StructuralFrame.structural_elements]
    rw [zipElems_map_elements groups1 _
      (by rw [regroup_length, List.length_map])]
    exact regroup_flatten _ flat2 hsum
  · subst hm2
    rfl

/-- C2: whenever assigning a Solutions object succeeds, every StructuralGroup
at index `e` (in group order) ends up holding exactly the scalar-field row and
block row at index `e` of the solutions' raw arrays — the same group (name and
relation unchanged) with precisely that slice and no other. -/
theorem solutions_setter_assigns_group_slices (m : GeoModel) (v : Solutions)
    (m2 : GeoModel) (h : m.set_solutions v = .ok m2) :
    m2.structural_frame.structural_groups.length =
      m.structural_frame.structural_groups.length ∧
    ∀ (e : ℕ) (g : StructuralGroup),
      m.structural_frame.structural_groups[e]? = some g →
      ∃ (sf bm : List ℚ), v.raw_arrays.scalar_field_matrix[e]? = some sf ∧
        v.raw_arrays.block_matrix[e]? = some bm ∧
        ∃ (g2 : StructuralGroup),
          m2.structural_frame.structural_groups[e]? = some g2 ∧
          g2.solution = some { scalar_field_matrix := sf, block_matrix := bm } ∧
          g2.name = g.name ∧ g2.structural_relation = g.structural_relation := by
  obtain ⟨groups1, flat2, hassign, hdist, hm2⟩ := set_solutions_ok_parts m v m2 h
  obtain ⟨hlen, hmap, hidx⟩ := assignGroupSolutions_ok_spec v.raw_arrays
    m.structural_frame.structural_groups 0 groups1 hassign
  subst hm2
  constructor
  · simp only [List.length_zipWith, regroup_length, List.length_map, hlen,
      Nat.min_self]
  · intro e g hg
    obtain ⟨sf, bm, hsf, hbm, hg2⟩ := hidx e g hg
    rw [Nat.zero_add] at hsf hbm
    refine ⟨sf, bm, hsf, hbm, ?_⟩
    have he : e < groups1.length := by
      rw [hlen]
      exact (List.getElem?_eq_some.1 hg).1
    have hlt : e < (regroup (groups1.map (fun g => g.elements.length)) flat2).length := by
      rw [regroup_length, List.length_map]
      exact he
    have hes := List.getElem?_eq_getElem hlt
    exact ⟨_, zipElems_getElem groups1 _ e _ _ hg2 hes, rfl, rfl, rfl⟩

theorem solutions_setter_assigns_group_slices_witness :
    exModel.set_solutions exSolutions = .ok exModelSolved ∧
    (∃ (sf bm : List ℚ), exSolutions.raw_arrays.scalar_field_matrix[0]? = some sf ∧
      exSolutions.raw_arrays.block_matrix[0]? = some bm ∧
      ∃ (g2 : StructuralGroup),
        exModelSolved.structural_frame.structural_groups[0]? = some g2 ∧
        g2.solution = some { scalar_field_matrix := sf, block_matrix := bm } ∧
        g2.name = exGroup1.name ∧
        g2.structural_relation = exGroup1.structural_relation) :=
  ⟨rfl, (solutions_setter_assigns_group_slices exModel exSolutions exModelSolved
    rfl).2 0 exGroup1 rfl⟩

/-- C3: with enough group rows and a mesh list covering every non-basement
element (or no mesh list at all), assigning Solutions succeeds — no exception
— and the distribution covers every flattened element except the last
(basement), which is left untouched; a covered element whose engine output
index holds no mesh gets `none` stored for both its vertices and its edges. -/
theorem solutions_setter_mesh_distribution_total (m : GeoModel) (v : Solutions)
    (hsf : m.structural_frame.structural_groups.length ≤
      v.raw_arrays.scalar_field_matrix.length)
    (hbm : m.structural_frame.structural_groups.length ≤
      v.raw_arrays.block_matrix.length)
    (hmesh : v.dc_meshes = none ∨ ∃ lst, v.dc_meshes = some lst ∧
      m.structural_frame.structural_elements.length ≤ lst.length + 1) :
    ∃ m2, m.set_solutions v = .ok m2 ∧
      m2.structural_frame.structural_elements.length =
        m.structural_frame.structural_elements.length ∧
      (∀ i, i + 1 = m.structural_frame.structural_elements.length →
        m2.structural_frame.structural_elements[i]? =
          m.structural_frame.structural_elements[i]?) ∧
      (∀ i el, i + 1 < m.structural_frame.structural_elements.length →
        m.structural_frame.structural_elements[i]? = some el →
        meshAt v.dc_meshes i = .ok none →
        m2.structural_frame.structural_elements[i]? =
          some { el with vertices := none, edges := none }) := by
  obtain ⟨groups1, hassign⟩ := assignGroupSolutions_total v.raw_arrays
    m.structural_frame.structural_groups 0 (by simpa using hsf) (by simpa using hbm)
  obtain ⟨_, hmap, _⟩ := assignGroupSolutions_ok_spec v.raw_arrays
    m.structural_frame.structural_groups 0 groups1 hassign
  have hflat : (groups1.map (fun g => g.elements)).flatten =
      m.structural_frame.structural_elements := by
    rw [StructuralFrame.structural_elements, hmap]
  obtain ⟨flat2, hdist⟩ := distributeMeshes_total m.transform v.dc_meshes
    ((groups1.map (fun g => g.elements)).flatten) 0
    (fun lst hms => by
      rcases hmesh with hnone | ⟨lst', hsome, hle⟩
      · rw [hnone] at hms; exact absurd hms (by simp)
      · rw [hsome] at hms
        injection hms with hlst
        subst hlst
        rw [hflat]
        simpa using hle)
  have hok : m.set_solutions v = .ok { m with solutions := some v, structural_frame := { m.structural_frame with structural_groups := List.zipWith (fun g es => { g with elements := es }) groups1 (regroup (groups1.map (fun g => g.elements.length)) flat2) } } := by
    simp only [GeoModel.set_solutions, hassign, hdist]
  obtain ⟨flat2', hdist', helems, _⟩ := set_solutions_elements m v _ hok
  obtain ⟨hdl, hdlast, hdmid⟩ := distributeMeshes_ok_spec m.transform v.dc_meshes
    m.structural_frame.structural_elements 0 flat2' hdist'
  refine ⟨_, hok, ?_, ?_, ?_⟩
  · rw [helems]; exact hdl
  · intro i hi
    rw [helems]
    exact hdlast i hi
  · intro i el hi hel hm0
    rw [helems]
    obtain ⟨dc, hdc, hres⟩ := hdmid i el hi hel
    rw [Nat.zero_add] at hdc
    have hde : (Except.ok dc : Except GError (Option DualContouringMesh)) = .ok none :=
      hdc.symm.trans hm0
    injection hde with hde2
    subst hde2
    simpa [applyMesh] using hres

theorem solutions_setter_mesh_distribution_total_witness :
    (exModel.structural_frame.structural_groups.length ≤
      exSolutions.raw_arrays.scalar_field_matrix.length) ∧
    (exModel.structural_frame.structural_groups.length ≤
      exSolutions.raw_arrays.block_matrix.length) ∧
    (exSolutions.dc_meshes = none ∨ ∃ lst, exSolutions.dc_meshes = some lst ∧
      exModel.structural_frame.structural_elements.length ≤ lst.length + 1) ∧
    ∃ m2, exModel.set_solutions exSolutions = .ok m2 ∧
      m2.structural_frame.structural_elements.length =
        exModel.structural_frame.structural_elements.length ∧
      (∀ i, i + 1 = exModel.structural_frame.structural_elements.length →
        m2.structural_frame.structural_elements[i]? =
          exModel.structural_frame.structural_elements[i]?) ∧
      (∀ i el, i + 1 < exModel.structural_frame.structural_elements.length →
        exModel.structural_frame.structural_elements[i]? = some el →
        meshAt exSolutions.dc_meshes i = .ok none →
        m2.structural_frame.structural_elements[i]? =
          some { el with vertices := none, edges := none }) :=
  ⟨by decide, by decide, Or.inr ⟨[some exMesh, none], rfl, by decide⟩,
    solutions_setter_mesh_distribution_total exModel exSolutions (by decide)
      (by decide) (Or.inr ⟨[some exMesh, none], rfl, by decide⟩)⟩

/-- C4: whenever assigning Solutions succeeds, a non-basement element whose
engine output index holds a mesh ends up storing exactly that mesh's vertices
mapped through `Transform.apply_inverse` and that mesh's edge triples
unchanged. -/
theorem solutions_setter_inverse_transforms_vertices (m : GeoModel)
    (v : Solutions) (m2 : GeoModel) (h : m.set_solutions v = .ok m2) :
    ∀ i el dc, i + 1 < m.structural_frame.structural_elements.length →
      m.structural_frame.structural_elements[i]? = some el →
      meshAt v.dc_meshes i = .ok (some dc) →
      m2.structural_frame.structural_elements[i]? =
        some { el with vertices := some (dc.vertices.map m.transform.apply_inverse),
                       edges := some dc.edges } := by
  obtain ⟨flat2, hdist, helems, _⟩ := set_solutions_elements m v m2 h
  obtain ⟨_, _, hdmid⟩ := distributeMeshes_ok_spec m.transform v.dc_meshes
    m.structural_frame.structural_elements 0 flat2 hdist
  intro i el dc hi hel hm0
  obtain ⟨dc', hdc', hres⟩ := hdmid i el hi hel
  rw [Nat.zero_add] at hdc'
  have hde : (Except.ok dc' : Except GError (Option DualContouringMesh)) =
      .ok (some dc) := hdc'.symm.trans hm0
  injection hde with hde2
  subst hde2
  rw [helems]
  simpa [applyMesh] using hres

theorem solutions_setter_inverse_transforms_vertices_witness :
    exModel.set_solutions exSolutions = .ok exModelSolved ∧
    0 + 1 < exModel.structural_frame.structural_elements.length ∧
    exModel.structural_frame.structural_elements[0]? = some elemA ∧
    meshAt exSolutions.dc_meshes 0 = .ok (some exMesh) ∧
    exModelSolved.structural_frame.structural_elements[0]? =
      some { elemA with
        vertices := some (exMesh.vertices.map exModel.transform.apply_inverse),
        edges := some exMesh.edges } :=
  ⟨rfl, by decide, rfl, rfl,
    solutions_setter_inverse_transforms_vertices exModel exSolutions
      exModelSolved rfl 0 elemA exMesh (by decide) rfl rfl⟩

/-- C6 (corrected claim): assigning Solutions raises an index-out-of-range
error when there is at least one StructuralGroup and the raw arrays hold fewer
scalar-field or block rows than there are groups; with fewer groups than rows
no error is raised — the setter performs no group-count/slice-count equality
check (counterexample: `solutions_setter_mismatch_unchecked`). -/
theorem solutions_setter_index_error_on_missing_rows (m : GeoModel)
    (v : Solutions) (hne : m.structural_frame.structural_groups ≠ [])
    (hlt : v.raw_arrays.scalar_field_matrix.length <
        m.structural_frame.structural_groups.length ∨
      v.raw_arrays.block_matrix.length <
        m.structural_frame.structural_groups.length) :
    m.set_solutions v = .error .IndexError := by
  have herr := assignGroupSolutions_err v.raw_arrays
    m.structural_frame.structural_groups 0 hne (by simpa using hlt)
  simp only [GeoModel.set_solutions, herr]

theorem solutions_setter_index_error_on_missing_rows_witness :
    exModelOneGroup.structural_frame.structural_groups ≠ [] ∧
    exSolutionsEmpty.raw_arrays.scalar_field_matrix.length <
      exModelOneGroup.structural_frame.structural_groups.length ∧
    exModelOneGroup.set_solutions exSolutionsEmpty = .error .IndexError :=
  ⟨by decide, by decide,
    solutions_setter_index_error_on_missing_rows exModelOneGroup
      exSolutionsEmpty (by decide) (Or.inl (by decide))⟩

theorem solutions_setter_mismatch_unchecked :
    exModelOneGroup.structural_frame.structural_groups.length = 1 ∧
    exSolutionsTwoSlices.raw_arrays.scalar_field_matrix.length = 2 ∧
    exSolutionsTwoSlices.raw_arrays.block_matrix.length = 2 ∧
    exModelOneGroup.set_solutions exSolutionsTwoSlices = .ok exModelOneGroupSolved :=
  ⟨rfl, rfl, rfl, rfl⟩

/-- C7: the Transform is fitted exactly once, in `GeoModel.init`, from the
frame's flattened surface points and orientations; neither a derived-input
read (clean or dirty) nor a successful Solutions assignment ever changes the
stored Transform, and every rebuild passes exactly the stored Transform to the
engine-input constructor. -/
theorem transform_fitted_once_never_refit (name : String) (f : StructuralFrame)
    (g : Grid) (o : InterpolationOptions) (m : GeoModel)
    (h : GeoModel.init name f g o = .ok m) :
    Transform.from_input_points f.surface_points f.orientations = .ok m.transform ∧
    (∀ m' : GeoModel, (m'.interpolation_input_read).model.transform = m'.transform) ∧
    (∀ (m' : GeoModel) (ii : InterpolationInput),
      (m'.interpolation_input_read).rebuilt = true →
      (m'.interpolation_input_read).value = some ii →
      ii = InterpolationInput.from_structural_frame m'.structural_frame
        (m'.interpolation_input_read).model.grid m'.transform
        (decide (m'.interpolation_options.number_octree_levels > 1))) ∧
    (∀ (m' : GeoModel) (v : Solutions) (m2 : GeoModel),
      m'.set_solutions v = .ok m2 → m2.transform = m'.transform) := by
  refine ⟨?_, ?_, ?_, ?_⟩
  · simp only [GeoModel.init] at h
    split at h
    next heq => simp at h
    next t heq =>
      injection h with h2
      subst h2
      exact heq
  · intro m'
    by_cases hd : m'.structural_frame.is_dirty <;>
      simp [GeoModel.interpolation_input_read, hd]
  · intro m' ii hr hv
    by_cases hd : m'.structural_frame.is_dirty
    · simp only [GeoModel.interpolation_input_read, hd, if_true] at hv ⊢
      simp only [Option.some.injEq] at hv
      simp [← hv]
    · simp [GeoModel.interpolation_input_read, hd] at hr
  · intro m' v m2 hok
    obtain ⟨g1, f2, _, _, hm2⟩ := set_solutions_ok_parts m' v m2 hok
    subst hm2
    rfl

theorem transform_fitted_once_never_refit_witness :
    GeoModel.init exName exFrame exGrid { number_octree_levels := 0 } = .ok mC7 ∧
    Transform.from_input_points exFrame.surface_points exFrame.orientations =
      .ok mC7.transform :=
  ⟨rfl, (transform_fitted_once_never_refit exName exFrame exGrid
    { number_octree_levels := 0 } mC7 rfl).1⟩

end Gempy
